import Mathlib

/-!
Verification of the documentation-chatbot search-and-summarize pipeline.

The embedding translates the TypeScript pipeline from `src/lib/supabase.ts`
(keyword extraction, two-stage article retrieval, summary generation) and the
chat-session logic from `src/components/ChatInterface.tsx` into Lean.
The Supabase store is modelled as a collaborator returning `Option` responses:
the supabase-js client resolves every query to a record `\x7b data, error \x7d`
and never throws for query errors, so `none` stands for a response with
`data: null` (a store error) and `some rs` for a successful row set `rs`.
-/

namespace Chatbot

/-- The `Article` row shape from `src/lib/supabase.ts`.  Timestamps are
modelled as naturals (creation order), which is all the pipeline inspects. -/
structure Article where
  id : String
  title : String
  content : String
  keywords : List String
  category : String
  author : String
  created_at : Nat
  updated_at : Nat
deriving Repr, DecidableEq

/-- The fixed stop-word list from `extractKeywords`. -/
def stopWords : List String :=
  ["the", "is", "at", "which", "on", "how", "to", "what", "where", "when",
   "why", "and", "or", "but", "in", "with", "for"]

/-- JS `String.prototype.toLowerCase`, character by character. -/
def jsToLower (s : String) : String := ⟨s.data.map Char.toLower⟩

/-- Worker for `splitWsRuns`: `acc` holds the reversed current token. -/
def splitWsAux : List Char → List Char → List String
  | [], acc => if acc.isEmpty then [] else [⟨acc.reverse⟩]
  | c :: rest, acc =>
      if c.isWhitespace then
        (if acc.isEmpty then [] else [⟨acc.reverse⟩]) ++ splitWsAux rest []
      else splitWsAux rest (c :: acc)

/-- JS `split(/\s+/)` restricted to its non-empty tokens: the maximal runs of
non-whitespace characters, in order.  (`split(/\s+/)` can also emit an empty
token at a leading or trailing whitespace; those are discarded by the
`length > 2` filter below, so only the runs matter.) -/
def splitWsRuns (l : List Char) : List String := splitWsAux l []

/-- The token filter of `extractKeywords`: keep words longer than 2
characters that are not stop words. -/
def keepToken (word : String) : Bool :=
  decide (2 < word.length) && !(stopWords.contains word)

/-- `extractKeywords` from `src/lib/supabase.ts`: lower-case, split on
whitespace, keep tokens of length `> 2` that are not stop words, take the
first 5. -/
def extractKeywords (query : String) : List String :=
  ((splitWsRuns (jsToLower query).data).filter keepToken).take 5

/-- A single store round-trip issued by the retriever. -/
inductive StoreCall where
  | overlap (keywords : List String)
  | text (query : String)
deriving Repr, DecidableEq

/-- The Article Store collaborator as seen through supabase-js: each query
shape resolves to `some rows` on success or `none` when the response carried
`data: null` (store error). -/
structure Store where
  overlapResp : List String → Option (List Article)
  textResp : String → Option (List Article)

/-- `searchArticles` from `src/lib/supabase.ts`.  Stage 1 issues the
keyword-overlap query; when its `data` is `null` or the empty list, stage 2
issues the full-text query over the title and the final `?? []` collapses a
`null` stage-2 `data` to the empty list. -/
def searchArticles (store : Store) (query : String) : List Article :=
  let keywords := extractKeywords query
  match store.overlapResp keywords with
  | none => (store.textResp query).getD []
  | some rs => if rs = [] then (store.textResp query).getD [] else rs

/-- The sequence of store round-trips `searchArticles` issues: the overlap
query always, then the text query exactly when stage 1 produced no rows. -/
def searchArticlesCalls (store : Store) (query : String) : List StoreCall :=
  let keywords := extractKeywords query
  StoreCall.overlap keywords ::
    (match store.overlapResp keywords with
     | none => [StoreCall.text query]
     | some rs => if rs = [] then [StoreCall.text query] else [])

/-- JS `String.prototype.substring(0, n)`: the first `n` characters. -/
def jsSubstringTo (s : String) (n : Nat) : String := ⟨s.data.take n⟩

/-- JS `[...new Set(xs)]`: deduplication keeping first occurrences. -/
def dedupFirst : List String → List String
  | [] => []
  | a :: rest => a :: dedupFirst (rest.filter (fun b => !(b == a)))
termination_by l => l.length
decreasing_by
  simp only [List.length_cons]
  exact Nat.lt_succ_of_le (List.length_filter_le _ _)

/-- JS `String.prototype.trim`: strip leading and trailing whitespace. -/
def jsTrim (s : String) : String :=
  ⟨((s.data.dropWhile Char.isWhitespace).reverse.dropWhile Char.isWhitespace).reverse⟩

/-- JS `String.prototype.includes` on character lists. -/
def charsInclude (pat : List Char) : List Char → Bool
  | [] => pat.isEmpty
  | c :: rest => pat.isPrefixOf (c :: rest) || charsInclude pat rest

/-- JS `String.prototype.includes`. -/
def strIncludes (s pat : String) : Bool := charsInclude pat.data s.data

/-- `generateContextualSummary` from `src/lib/supabase.ts`: pick the closing
sentence by substring tests on the lower-cased query, naming the first
distinct category of the article list. -/
def generateContextualSummary (articles : List Article) (query : String) : String :=
  let categories := dedupFirst (articles.map (fun a => a.category))
  let mainCategory := categories.headD "undefined"
  if strIncludes (jsToLower query) "how" then
    "Here are the step-by-step instructions from our " ++ mainCategory ++
      " documentation. Follow the procedures outlined in these articles for best results."
  else if strIncludes (jsToLower query) "what" then
    "These articles explain the concepts and definitions related to " ++ mainCategory ++
      ". Review the documentation for comprehensive understanding."
  else if strIncludes (jsToLower query) "error" || strIncludes (jsToLower query) "issue" then
    "These articles contain troubleshooting information and solutions for common issues in " ++
      mainCategory ++ ". Check the error handling sections."
  else
    "The documentation covers various aspects of " ++ mainCategory ++
      ". These articles should provide the information you\x27re looking for."

/-- One article line of the summary body: title, category, first 200
characters of the content, ellipsis marker. -/
def articleBlock (article : Article) : String :=
  "**" ++ article.title ++ "** (" ++ article.category ++ "): " ++
    jsSubstringTo article.content 200 ++ "..."

/-- The fixed no-results message from `generateSummary`. -/
def noResultsMessage : String :=
  "I couldn\x27t find any relevant articles for your query. Try using different keywords or check with an admin to ensure the documentation is available."

/-- `generateSummary` from `src/lib/supabase.ts`. -/
def generateSummary (articles : List Article) (query : String) : String :=
  if articles.length = 0 then
    noResultsMessage
  else
    let relevantContent := String.intercalate "\n\n" ((articles.take 3).map articleBlock)
    let plural := if articles.length > 1 then "s" else ""
    "Based on your query about \"" ++ query ++ "\", I found " ++
      toString articles.length ++ " relevant article" ++ plural ++ ":\n\n" ++
      relevantContent ++ "\n\n**Summary**: " ++ generateContextualSummary articles query

/-- Descending creation order: `a` was created no earlier than `b`. -/
def createdGe (a b : Article) : Prop := b.created_at ≤ a.created_at

instance : DecidableRel createdGe := fun a b => Nat.decLe b.created_at a.created_at

instance : IsTotal Article createdGe :=
  ⟨fun a b => Nat.le_total b.created_at a.created_at⟩

instance : IsTrans Article createdGe :=
  ⟨fun _ _ _ hab hbc => Nat.le_trans hbc hab⟩

/-- Sorting by `created_at` descending, the `order(created_at, descending)`
clause of the store queries. -/
def byCreatedDesc (l : List Article) : List Article := l.insertionSort createdGe

/-- Postgres array overlap `keywords && kws`: some stored keyword occurs in
the supplied list. -/
def overlapsPred (kws : List String) (a : Article) : Bool :=
  a.keywords.any (fun k => kws.contains k)

/-- The stage-1 store query: rows whose keyword array overlaps `kws`,
ordered by `created_at` descending, capped at 5. -/
def overlapQuery (db : List Article) (kws : List String) : List Article :=
  (byCreatedDesc (db.filter (overlapsPred kws))).take 5

/-- The stage-2 store query: full-text search over the title (matching
predicate `ft` abstracts the text-search index), ordered by `created_at`
descending, capped at 5. -/
def textQuery (ft : String → String → Bool) (db : List Article) (q : String) :
    List Article :=
  (byCreatedDesc (db.filter (fun a => ft q a.title))).take 5

/-- A store that answers both query shapes from a database `db` without
errors. -/
def honestStore (ft : String → String → Bool) (db : List Article) : Store :=
  { overlapResp := fun kws => some (overlapQuery db kws)
    textResp := fun q => some (textQuery ft db q) }

/-! ## Chat session state (`src/components/ChatInterface.tsx`) -/

/-- A chat turn as held in the `messages` state (timestamp elided; `id` is
the stringified dispatch instant). -/
structure ChatMsg where
  id : String
  content : String
  isBot : Bool
  articles : Option (List Article)
deriving Repr, DecidableEq

/-- The component state triple of `ChatInterface`. -/
structure SessionState where
  messages : List ChatMsg
  inputValue : String
  isLoading : Bool
deriving Repr, DecidableEq

/-- The user turn appended on an accepted submission. -/
def userTurn (now : Nat) (content : String) : ChatMsg :=
  { id := toString now, content := content, isBot := false, articles := none }

/-- The fixed apology turn appended when the pipeline throws. -/
def errorTurnContent : String :=
  "I\x27m sorry, I encountered an error while searching for information. Please try again or contact an administrator."

/-- The error turn appended in the `catch` branch. -/
def errorTurn (now : Nat) : ChatMsg :=
  { id := toString now, content := errorTurnContent, isBot := true, articles := none }

/-- Outcome of the awaited retrieval-and-summarize cycle: the article list
on success, or a thrown exception. -/
inductive PipelineOutcome where
  | ok (articles : List Article)
  | err
deriving Repr, DecidableEq

/-- The synchronous head of `handleSendMessage`: reject when the input is
blank or a cycle is in flight; otherwise append the user turn, clear the
input, raise the in-flight flag and dispatch the query. The second component
is the dispatched query, `none` when nothing was dispatched. -/
def submitStart (now : Nat) (s : SessionState) : SessionState × Option String :=
  if jsTrim s.inputValue = "" ∨ s.isLoading = true then (s, none)
  else
    ({ messages := s.messages ++ [userTurn now s.inputValue]
       inputValue := ""
       isLoading := true }, some s.inputValue)

/-- The continuation of `handleSendMessage` after the awaited cycle: append
the assistant turn (summary plus top-3 articles) or the fixed error turn,
then clear the in-flight flag (`finally`). -/
def submitFinish (outcome : PipelineOutcome) (now : Nat) (query : String)
    (s : SessionState) : SessionState :=
  match outcome with
  | .ok articles =>
      { s with
        messages := s.messages ++
          [{ id := toString now, content := generateSummary articles query
             isBot := true, articles := some (articles.take 3) }]
        isLoading := false }
  | .err =>
      { s with messages := s.messages ++ [errorTurn now], isLoading := false }

/-- `handleSendMessage` run to completion with the given pipeline outcome. -/
def handleSendMessage (outcome : PipelineOutcome) (now : Nat)
    (s : SessionState) : SessionState :=
  match submitStart now s with
  | (s', none) => s'
  | (s', some q) => submitFinish outcome (now + 1) q s'

/-! ## Helper lemmas -/

/-- Unfolding lemma for `dedupFirst` on a cons cell. -/
theorem dedupFirst_cons (x : String) (l : List String) :
    dedupFirst (x :: l) = x :: dedupFirst (l.filter (fun b => !(b == x))) := by
  rw [dedupFirst]

/-- `generateContextualSummary` on a non-empty list names the first
article's category in every branch of the query classification. -/
theorem contextualSummary_cons (a : Article) (rest : List Article) (query : String) :
    generateContextualSummary (a :: rest) query =
      (if strIncludes (jsToLower query) "how" then
        "Here are the step-by-step instructions from our " ++ a.category ++
          " documentation. Follow the procedures outlined in these articles for best results."
       else if strIncludes (jsToLower query) "what" then
        "These articles explain the concepts and definitions related to " ++ a.category ++
          ". Review the documentation for comprehensive understanding."
       else if strIncludes (jsToLower query) "error" || strIncludes (jsToLower query) "issue" then
        "These articles contain troubleshooting information and solutions for common issues in " ++
          a.category ++ ". Check the error handling sections."
       else
        "The documentation covers various aspects of " ++ a.category ++
          ". These articles should provide the information you\x27re looking for.") := by
  unfold generateContextualSummary
  rw [List.map_cons, dedupFirst_cons]
  rfl

/-! ## Claim theorems -/

/-- C3: keyword extraction lower-cases the query, splits it on whitespace
runs, discards tokens of length at most 2 and tokens in the fixed 17-word
stop-word list, and returns the first at most 5 surviving tokens in original
order (a prefix of the filtered token list, hence no stemming and no
deduplication); the empty input yields the empty list and no input yields
more than 5 tokens. -/
theorem C3_keyword_extraction (query : String) :
    (extractKeywords query).length ≤ 5 ∧
    extractKeywords "" = [] ∧
    stopWords.length = 17 ∧
    (∀ w ∈ extractKeywords query, 2 < w.length ∧ w ∉ stopWords) ∧
    extractKeywords query <+: (splitWsRuns (jsToLower query).data).filter keepToken := by
  refine ⟨List.length_take_le _ _, by decide, by decide, ?_, List.take_prefix _ _⟩
  intro w hw
  have hmem : keepToken w = true :=
    (List.mem_filter.mp (List.mem_of_mem_take hw)).2
  simp only [keepToken, Bool.and_eq_true, decide_eq_true_eq, Bool.not_eq_true'] at hmem
  refine ⟨hmem.1, fun hstop => ?_⟩
  have hc : stopWords.contains w = true := by
    simp [List.contains, List.elem_eq_mem, hstop]
  rw [hmem.2] at hc
  cases hc

/-- C7: for the empty article set the summary generator returns the fixed
no-results message verbatim, independent of the query text. -/
theorem C7_no_results_fixed_message (query : String) :
    generateSummary [] query = noResultsMessage := rfl

/-- C10: the per-article excerpt is `content.substring(0, 200) + "..."`
unconditionally; when the content is at most 200 characters long the whole
content is emitted and the ellipsis marker is still appended. -/
theorem C10_short_content_still_ellipsis (a : Article)
    (h : a.content.data.length ≤ 200) :
    articleBlock a =
      "**" ++ a.title ++ "** (" ++ a.category ++ "): " ++ a.content ++ "..." := by
  unfold articleBlock jsSubstringTo
  rw [List.take_of_length_le h]

/-- Witness for C10 at a concrete article with 9-character content. -/
theorem C10_short_content_still_ellipsis_witness :
    articleBlock ⟨"1", "Title", "Step one.", ["docker"], "DevOps", "Admin", 0, 0⟩ =
      "**" ++ "Title" ++ "** (" ++ "DevOps" ++ "): " ++ "Step one." ++ "..." :=
  C10_short_content_still_ellipsis
    ⟨"1", "Title", "Step one.", ["docker"], "DevOps", "Admin", 0, 0⟩ (by decide)

/-- C5: on a non-empty article list the summary is the header naming the
total matched count and the query verbatim, followed by the blocks of the
first 3 articles (title, category, 200-character excerpt with ellipsis)
joined by blank lines, followed by the contextual closing sentence; the
count phrase takes an "s" exactly when more than one article matched. -/
theorem C5_summary_format (a : Article) (rest : List Article) (query : String) :
    generateSummary (a :: rest) query =
      "Based on your query about \"" ++ query ++ "\", I found " ++
        toString (a :: rest).length ++ " relevant article" ++
        (if (a :: rest).length > 1 then "s" else "") ++ ":\n\n" ++
        String.intercalate "\n\n" (((a :: rest).take 3).map articleBlock) ++
        "\n\n**Summary**: " ++ generateContextualSummary (a :: rest) query ∧
    (((a :: rest).take 3).map articleBlock).length ≤ 3 ∧
    (if (a :: rest).length > 1 then "s" else "") =
      (if rest = [] then "" else "s") := by
  refine ⟨?_, ?_, ?_⟩
  · show (if (a :: rest).length = 0 then _ else _) = _
    rw [if_neg (by simp)]
  · calc (((a :: rest).take 3).map articleBlock).length
        = ((a :: rest).take 3).length := List.length_map _ _
      _ ≤ 3 := List.length_take_le _ _
  · cases rest <;> simp

/-- C4: the contextual closing sentence is chosen by case-insensitive
substring tests in the priority order how, then what, then error-or-issue,
then generic (first match wins); a query containing both "how" and "error"
selects the procedural framing; and the dominant category named in every
branch is the category of the first article of the truncated top-3 list. -/
theorem C4_contextual_priority (a : Article) (rest : List Article) (query : String) :
    generateContextualSummary (a :: rest) query =
      (if strIncludes (jsToLower query) "how" then
        "Here are the step-by-step instructions from our " ++ a.category ++
          " documentation. Follow the procedures outlined in these articles for best results."
       else if strIncludes (jsToLower query) "what" then
        "These articles explain the concepts and definitions related to " ++ a.category ++
          ". Review the documentation for comprehensive understanding."
       else if strIncludes (jsToLower query) "error" || strIncludes (jsToLower query) "issue" then
        "These articles contain troubleshooting information and solutions for common issues in " ++
          a.category ++ ". Check the error handling sections."
       else
        "The documentation covers various aspects of " ++ a.category ++
          ". These articles should provide the information you\x27re looking for.") ∧
    strIncludes (jsToLower "how do I fix this error") "how" = true ∧
    strIncludes (jsToLower "how do I fix this error") "error" = true ∧
    generateContextualSummary (a :: rest) "how do I fix this error" =
      "Here are the step-by-step instructions from our " ++ a.category ++
        " documentation. Follow the procedures outlined in these articles for best results." ∧
    ((a :: rest).take 3).head? = some a := by
  refine ⟨contextualSummary_cons a rest query, by decide, by decide, ?_, rfl⟩
  rw [contextualSummary_cons, if_pos (by decide)]

/-- C6: against a store that honours the query shapes, retrieval returns at
most 5 articles ordered by creation time descending, and so does each of the
two stages taken on its own. -/
theorem C6_retrieval_cap_and_order (ft : String → String → Bool)
    (db : List Article) (query : String) :
    (searchArticles (honestStore ft db) query).length ≤ 5 ∧
    List.Sorted createdGe (searchArticles (honestStore ft db) query) ∧
    (overlapQuery db (extractKeywords query)).length ≤ 5 ∧
    List.Sorted createdGe (overlapQuery db (extractKeywords query)) ∧
    (textQuery ft db query).length ≤ 5 ∧
    List.Sorted createdGe (textQuery ft db query) := by
  have hq : ∀ l : List Article, List.Sorted createdGe ((byCreatedDesc l).take 5) :=
    fun l => List.Pairwise.sublist (List.take_sublist _ _)
      (List.sorted_insertionSort createdGe l)
  have hsearch : searchArticles (honestStore ft db) query =
      (if overlapQuery db (extractKeywords query) = [] then textQuery ft db query
       else overlapQuery db (extractKeywords query)) := by
    simp [searchArticles, honestStore]
  refine ⟨?_, ?_, List.length_take_le _ _, hq _, List.length_take_le _ _, hq _⟩
  · rw [hsearch]
    split <;> exact List.length_take_le _ _
  · rw [hsearch]
    split <;> exact hq _

/-- A store double whose stage-1 response carries `data: null` (a store
error) and whose stage-2 response succeeds with no rows. -/
def stage1ErrStore : Store :=
  { overlapResp := fun _ => none, textResp := fun _ => some [] }

/-- A store double whose stage-1 response succeeds with zero rows and whose
stage-2 response carries `data: null` (a store error). -/
def stage2ErrStore : Store :=
  { overlapResp := fun _ => some [], textResp := fun _ => none }

/-- A sample persisted article. -/
def dockerArticle : Article :=
  ⟨"1", "Docker Deployment Guide", "Step one.", ["docker", "deployment"],
    "DevOps", "Admin", 10, 10⟩

/-- Modelled from the spec: the retriever protocol as §4.2 words it, with
step 1 skipped entirely (no overlap round-trip) when the extracted keyword
list is empty; this is the call sequence the claim asserts, to be compared
with the call sequence of the code. -/
def specRetrieverCalls (store : Store) (query : String) : List StoreCall :=
  let keywords := extractKeywords query
  if keywords = [] then [StoreCall.text query]
  else
    StoreCall.overlap keywords ::
      (match store.overlapResp keywords with
       | none => [StoreCall.text query]
       | some rs => if rs = [] then [StoreCall.text query] else [])

/-- C1 counterexample: for the query "the" the extracted keyword list is
empty, yet the code still issues the stage-1 overlap round-trip (with the
empty keyword list) before the full-text search — stage 1 is not skipped,
so the code's call sequence differs from the spec's. -/
theorem C1_stage1_not_skipped_cex :
    extractKeywords "the" = [] ∧
    searchArticlesCalls stage2ErrStore "the" =
      [StoreCall.overlap [], StoreCall.text "the"] ∧
    specRetrieverCalls stage2ErrStore "the" = [StoreCall.text "the"] ∧
    searchArticlesCalls stage2ErrStore "the" ≠ specRetrieverCalls stage2ErrStore "the" := by
  refine ⟨by decide, by decide, by decide, by decide⟩

/-- C1 amended: the stage-2 full-text search is issued iff stage 1 yields
zero rows; the stage-1 overlap round-trip is always issued, even for an
empty keyword list, in which case it necessarily yields zero rows (nothing
overlaps the empty list); the returned sequence is whichever stage's result
set was non-empty, or empty when both stages yield nothing. -/
theorem C1_two_stage_protocol (ft : String → String → Bool)
    (db : List Article) (query : String) :
    (StoreCall.text query ∈ searchArticlesCalls (honestStore ft db) query ↔
      overlapQuery db (extractKeywords query) = []) ∧
    StoreCall.overlap (extractKeywords query) ∈
      searchArticlesCalls (honestStore ft db) query ∧
    overlapQuery db [] = [] ∧
    searchArticles (honestStore ft db) query =
      (if overlapQuery db (extractKeywords query) = [] then textQuery ft db query
       else overlapQuery db (extractKeywords query)) := by
  have hcalls : searchArticlesCalls (honestStore ft db) query =
      StoreCall.overlap (extractKeywords query) ::
        (if overlapQuery db (extractKeywords query) = []
         then [StoreCall.text query] else []) := by
    simp [searchArticlesCalls, honestStore]
  have hempty : overlapQuery db [] = [] := by
    have : db.filter (overlapsPred []) = [] := by
      rw [List.filter_eq_nil_iff]
      intro a _
      simp [overlapsPred]
    simp [overlapQuery, this, byCreatedDesc]
  refine ⟨?_, ?_, hempty, ?_⟩
  · rw [hcalls]
    constructor
    · intro hmem
      by_contra hne
      rw [if_neg hne] at hmem
      simp at hmem
    · intro he
      rw [if_pos he]
      simp
  · rw [hcalls]
    exact List.mem_cons_self _ _
  · simp [searchArticles, honestStore]

/-- C2 counterexample: a stage-1 store error (`data: null`) is not
propagated — the pipeline proceeds to stage 2 and returns its rows — and a
stage-2 store error yields the empty result instead of a pipeline failure. -/
theorem C2_errors_swallowed_cex :
    searchArticles
        { overlapResp := fun _ => none, textResp := fun _ => some [dockerArticle] }
        "docker" = [dockerArticle] ∧
    StoreCall.text "docker" ∈
      searchArticlesCalls
        { overlapResp := fun _ => none, textResp := fun _ => some [dockerArticle] }
        "docker" ∧
    searchArticles stage2ErrStore "docker" = [] := by
  refine ⟨by decide, by decide, by decide⟩

/-- C2 amended: store-level errors never propagate as retrieval failures:
when stage 1 returns an error or zero rows the pipeline proceeds to stage 2
and returns its data, a stage-2 error collapsing to the empty result — the
retriever is total over store responses and signals no failure. -/
theorem C2_store_errors_not_propagated (store : Store) (query : String)
    (h : store.overlapResp (extractKeywords query) = none ∨
         store.overlapResp (extractKeywords query) = some []) :
    StoreCall.text query ∈ searchArticlesCalls store query ∧
    searchArticles store query = (store.textResp query).getD [] := by
  rcases h with h | h <;>
    simp [searchArticlesCalls, searchArticles, h]

/-- Witness for C2 amended: the stage-1-error store double with an empty
stage-2 answer. -/
theorem C2_store_errors_not_propagated_witness :
    StoreCall.text "docker" ∈ searchArticlesCalls stage1ErrStore "docker" ∧
    searchArticles stage1ErrStore "docker" =
      (stage1ErrStore.textResp "docker").getD [] :=
  C2_store_errors_not_propagated stage1ErrStore "docker" (Or.inl rfl)

/-- C8: an accepted submission raises the in-flight flag before dispatch;
every completion path clears it; and when the retrieval-and-summarize cycle
fails, the session ends with the user turn followed by the fixed generic
error turn, with the input cleared — the transition is total, so nothing is
raised to the caller. -/
theorem C8_error_turn_and_recovery (s : SessionState) (outcome : PipelineOutcome)
    (now : Nat) (h : ¬(jsTrim s.inputValue = "" ∨ s.isLoading = true)) :
    (submitStart now s).1.isLoading = true ∧
    (handleSendMessage outcome now s).isLoading = false ∧
    handleSendMessage PipelineOutcome.err now s =
      { messages := s.messages ++ [userTurn now s.inputValue, errorTurn (now + 1)]
        inputValue := ""
        isLoading := false } := by
  have hstart : submitStart now s =
      ({ messages := s.messages ++ [userTurn now s.inputValue]
         inputValue := ""
         isLoading := true }, some s.inputValue) := by
    rw [submitStart, if_neg h]
  refine ⟨by rw [hstart], ?_, ?_⟩
  · rw [handleSendMessage, hstart]
    cases outcome <;> rfl
  · rw [handleSendMessage, hstart]
    show SessionState.mk _ _ _ = _
    rw [List.append_assoc]
    rfl

/-- Witness for C8 at a concrete non-blank, idle session. -/
theorem C8_error_turn_and_recovery_witness :
    (submitStart 7 ⟨[], "hello", false⟩).1.isLoading = true ∧
    (handleSendMessage (PipelineOutcome.ok []) 7 ⟨[], "hello", false⟩).isLoading = false ∧
    handleSendMessage PipelineOutcome.err 7 ⟨[], "hello", false⟩ =
      { messages := [] ++ [userTurn 7 "hello", errorTurn 8]
        inputValue := ""
        isLoading := false } :=
  C8_error_turn_and_recovery ⟨[], "hello", false⟩ (PipelineOutcome.ok []) 7 (by decide)

/-- C9: a submission is a silent no-op — the whole session state, turn log,
input and in-flight flag included, is unchanged — whenever the trimmed input
is blank or a cycle is already in flight; in particular no new cycle is
dispatched while one is in flight, so at most one is ever outstanding. -/
theorem C9_submit_noop (s : SessionState) (outcome : PipelineOutcome) (now : Nat)
    (h : jsTrim s.inputValue = "" ∨ s.isLoading = true) :
    handleSendMessage outcome now s = s ∧ (submitStart now s).2 = none := by
  have hstart : submitStart now s = (s, none) := by
    rw [submitStart, if_pos h]
  exact ⟨by rw [handleSendMessage, hstart], by rw [hstart]⟩

/-- Witness for C9: a whitespace-only input on an idle session, and an
in-flight session with a non-blank input. -/
theorem C9_submit_noop_witness :
    (handleSendMessage PipelineOutcome.err 3 ⟨[], "   ", false⟩ = ⟨[], "   ", false⟩ ∧
      (submitStart 3 ⟨[], "   ", false⟩).2 = none) ∧
    (handleSendMessage PipelineOutcome.err 3 ⟨[], "hello", true⟩ = ⟨[], "hello", true⟩ ∧
      (submitStart 3 ⟨[], "hello", true⟩).2 = none) :=
  ⟨C9_submit_noop ⟨[], "   ", false⟩ PipelineOutcome.err 3 (Or.inl (by decide)),
   C9_submit_noop ⟨[], "hello", true⟩ PipelineOutcome.err 3 (Or.inr rfl)⟩

end Chatbot
